import Mathlib

/-!
Verification development for the InterView AI repository.

Shallow embedding of the delivery coach (`src/app/coaching.py`), the domain
models (`src/core/domain/models.py`), the orchestrator
(`src/app/orchestrator.py`), the session repository
(`src/infra/persistence/repository.py`), the Gemini evaluation parser
(`src/infra/llm/gemini.py`) and the API route handlers (`src/api/routes.py`).

Modelling conventions:
* Python `float` values are modelled as `ℚ` (the code performs only field
  arithmetic and order comparisons on them).
* Python `datetime` values are modelled by their ISO-8601 string form; where
  the code does arithmetic on datetimes the external `datetime.fromisoformat`
  conversion is passed in as a function parameter.
* Text is modelled as `List Char` for the character-level coach analyses and
  as `String` elsewhere.
* Calls to external adapters (Gemini, Whisper) are modelled by passing the
  call outcome in as an `Except` parameter.
-/

namespace InterViewAI

/-- ASCII whitespace as used by Python `str.split()` / `str.strip()`
(space, tab, newline, carriage return, vertical tab, form feed). -/
def isPyWs (c : Char) : Bool :=
  c = ' ' ∨ c = '\t' ∨ c = '\n' ∨ c = '\r' ∨ c = Char.ofNat 11 ∨ c = Char.ofNat 12

/-- ASCII lowercasing of one character, modelling Python `str.lower()`
on the ASCII range (all filler words and sentinels are ASCII). -/
def lowerChar (c : Char) : Char :=
  if 65 ≤ c.toNat ∧ c.toNat ≤ 90 then Char.ofNat (c.toNat + 32) else c

/-- Lowercase a character sequence, modelling Python `text.lower()`. -/
def pyLower (s : List Char) : List Char := s.map lowerChar

/-- Helper for `pyWords`: accumulates the current in-progress word (reversed). -/
def pyWordsAux : List Char → List Char → List (List Char)
  | [], acc => if acc.isEmpty then [] else [acc.reverse]
  | c :: cs, acc =>
    if isPyWs c then
      if acc.isEmpty then pyWordsAux cs [] else acc.reverse :: pyWordsAux cs []
    else
      pyWordsAux cs (c :: acc)

/-- Python `text.split()` with no separator: maximal runs of non-whitespace,
empty strings dropped. -/
def pyWords (s : List Char) : List (List Char) := pyWordsAux s []

/-- Python `not text.strip()`: the text consists only of whitespace
(including the empty text). -/
def isBlank (s : List Char) : Bool := s.all isPyWs

/-- Does `pat` occur as a prefix of `hay`? -/
def startsWith : List Char → List Char → Bool
  | [], _ => true
  | _ :: _, [] => false
  | p :: ps, h :: hs => p = h ∧ startsWith ps hs

/-- Helper for `countSubstr`: structural recursion on a fuel argument.
Every step consumes at least one character of the haystack, so fuel equal to
the haystack length never runs out. -/
def countSubstrAux : ℕ → List Char → List Char → ℕ
  | 0, _, _ => 0
  | _ + 1, [], _ => 0
  | fuel + 1, c :: rest, pat =>
    if startsWith pat (c :: rest) then
      1 + countSubstrAux fuel (rest.drop (pat.length - 1)) pat
    else countSubstrAux fuel rest pat

/-- Python `hay.count(pat)`: number of non-overlapping occurrences of `pat`
in `hay`, scanning left to right (used only with non-empty `pat`). -/
def countSubstr (hay pat : List Char) : ℕ := countSubstrAux hay.length hay pat

/-- Apostrophe character (used inside the filler word `y'know`). -/
def apos : Char := Char.ofNat 39

/-- `AudioCoach.FILLER_WORDS` from `src/app/coaching.py`. -/
def FILLER_WORDS : List (List Char) :=
  [ "um".data, "uh".data, "uhm".data, "umm".data,
    "like".data,
    "you know".data, ['y', apos, 'k', 'n', 'o', 'w'],
    "actually".data,
    "basically".data,
    "literally".data,
    "so".data, "well".data,
    "i mean".data,
    "kind of".data, "kinda".data,
    "sort of".data, "sorta".data ]

/-- Alert strings from `COACHING_ALERTS` in `src/core/prompts.py`. -/
def volumeLowAlert : String := "📣 Speak Up! Your voice is a bit quiet."

/-- `COACHING_ALERTS["pace_fast"]`. -/
def paceFastAlert : String := "🐢 Slow Down! Take a breath between thoughts."

/-- `COACHING_ALERTS["pace_slow"]`. -/
def paceSlowAlert : String := "⏩ Pick Up Pace! Try to be more concise."

/-- `COACHING_ALERTS["fillers_high"]` (the inner quotes around um / like are
built from `apos`). -/
def fillersHighAlert : String :=
  "💭 Watch the Fillers! Too many " ++ String.mk [apos] ++ "um" ++ String.mk [apos]
    ++ " and " ++ String.mk [apos] ++ "like" ++ String.mk [apos] ++ "."

/-- `COACHING_ALERTS["good"]`. -/
def goodAlert : String := "✅ Great delivery! Keep it up."

/-- Coaching / pacing settings from `src/core/config.py` (defaults:
`VOLUME_THRESHOLD = 0.02`, `WPM_FAST = 160`, `WPM_SLOW = 100`). -/
structure Settings where
  VOLUME_THRESHOLD : ℚ := 1 / 50
  WPM_FAST : ℚ := 160
  WPM_SLOW : ℚ := 100
deriving DecidableEq

/-- `AudioCoach.analyze_volume`. The source compares `rms = sqrt(mean(x²))`
with the threshold; since `sqrt` is monotone and both sides are nonnegative,
the embedding compares the mean square with the squared threshold, and the
history records mean squares (the squares of the source's RMS values). -/
def analyze_volume (S : Settings) (volumeHistory : List ℚ) (chunk : List ℚ) :
    String × List ℚ :=
  if chunk.isEmpty then ("OK", volumeHistory)
  else
    let meanSquare : ℚ := ((chunk.map fun x => x * x).sum) / (chunk.length : ℚ)
    let volumeHistory := volumeHistory ++ [meanSquare]
    if meanSquare < S.VOLUME_THRESHOLD ^ 2 then (volumeLowAlert, volumeHistory)
    else ("OK", volumeHistory)

/-- `AudioCoach.analyze_pace`: returns the status string and the updated
`_wpm_history`. -/
def analyze_pace (S : Settings) (wpmHistory : List ℚ) (text : List Char)
    (durationSeconds : ℚ) : String × List ℚ :=
  if durationSeconds ≤ 0 ∨ isBlank text = true then ("OK", wpmHistory)
  else
    let wordCount : ℚ := ((pyWords text).length : ℚ)
    let wpm : ℚ := wordCount / durationSeconds * 60
    let wpmHistory := wpmHistory ++ [wpm]
    if wpm > S.WPM_FAST then (paceFastAlert, wpmHistory)
    else if wpm < S.WPM_SLOW then (paceSlowAlert, wpmHistory)
    else ("OK", wpmHistory)

/-- `AudioCoach.get_filler_count`: single-word fillers are counted as exact
whitespace tokens of the lowercased text, multi-word fillers by substring
count. -/
def get_filler_count (text : List Char) : ℕ :=
  if text.isEmpty then 0
  else
    let textLower := pyLower text
    (FILLER_WORDS.map fun filler =>
      if (pyWords filler).length = 1 then (pyWords textLower).count filler
      else countSubstr textLower filler).sum

/-- `CoachingAlertLevel` from `src/core/domain/models.py`. -/
inductive CoachingAlertLevel where
  | OK
  | WARNING
  | CRITICAL
deriving DecidableEq

/-- String value of a `CoachingAlertLevel` (`.value` in Python). -/
def CoachingAlertLevel.value : CoachingAlertLevel → String
  | .OK => "ok"
  | .WARNING => "warning"
  | .CRITICAL => "critical"

/-- The `CoachingAlertLevel(str)` enum constructor: `none` models the
`ValueError` raised on an unknown value. -/
def coachingAlertLevelOfValue (v : String) : Option CoachingAlertLevel :=
  if v = "ok" then some .OK
  else if v = "warning" then some .WARNING
  else if v = "critical" then some .CRITICAL
  else none

/-- `CoachingFeedback` dataclass. -/
structure CoachingFeedback where
  volume_status : String := "OK"
  pace_status : String := "OK"
  filler_count : ℕ := 0
  words_per_minute : ℚ := 0
  primary_alert : String := ""
  alert_level : CoachingAlertLevel := .OK
deriving DecidableEq

/-- `AudioCoach.get_coaching_feedback`: combines volume, pace and filler
analysis; returns the feedback plus the updated WPM and volume histories. -/
def get_coaching_feedback (S : Settings) (wpmHistory volumeHistory : List ℚ)
    (text : List Char) (durationSeconds : ℚ) (audioData : Option (List ℚ)) :
    CoachingFeedback × List ℚ × List ℚ :=
  let vres := match audioData with
    | none => ("OK", volumeHistory)
    | some chunk => analyze_volume S volumeHistory chunk
  let volume_status := vres.1
  let pres := analyze_pace S wpmHistory text durationSeconds
  let pace_status := pres.1
  let filler_count := get_filler_count text
  let wpm : ℚ :=
    if 0 < durationSeconds ∧ text.isEmpty = false then
      ((pyWords text).length : ℚ) / durationSeconds * 60
    else 0
  let alert :=
    if volume_status ≠ "OK" then (volume_status, CoachingAlertLevel.WARNING)
    else if pace_status ≠ "OK" then (pace_status, CoachingAlertLevel.WARNING)
    else if filler_count > 5 then (fillersHighAlert, CoachingAlertLevel.WARNING)
    else if filler_count > 10 then ("", CoachingAlertLevel.CRITICAL)
    else (goodAlert, CoachingAlertLevel.OK)
  ({ volume_status := volume_status
     pace_status := pace_status
     filler_count := filler_count
     words_per_minute := wpm
     primary_alert := alert.1
     alert_level := alert.2 }, pres.2, vres.2)

/-- `InterviewState` enum from `src/core/domain/models.py`. -/
inductive InterviewState where
  | IDLE
  | SETUP
  | INTRO
  | QUESTIONING
  | LISTENING
  | EVALUATING
  | COMPLETE
  | ERROR
deriving DecidableEq

/-- String value of an `InterviewState` (`.value` in Python). -/
def InterviewState.value : InterviewState → String
  | .IDLE => "idle"
  | .SETUP => "setup"
  | .INTRO => "intro"
  | .QUESTIONING => "questioning"
  | .LISTENING => "listening"
  | .EVALUATING => "evaluating"
  | .COMPLETE => "complete"
  | .ERROR => "error"

/-- The `InterviewState(str)` enum constructor: `none` models the `ValueError`
raised on an unknown value. -/
def interviewStateOfValue (v : String) : Option InterviewState :=
  if v = "idle" then some .IDLE
  else if v = "setup" then some .SETUP
  else if v = "intro" then some .INTRO
  else if v = "questioning" then some .QUESTIONING
  else if v = "listening" then some .LISTENING
  else if v = "evaluating" then some .EVALUATING
  else if v = "complete" then some .COMPLETE
  else if v = "error" then some .ERROR
  else none

/-- `AnswerEvaluation` dataclass from `src/core/domain/models.py`. -/
structure AnswerEvaluation where
  technical_accuracy : ℤ := 0
  clarity : ℤ := 0
  depth : ℤ := 0
  completeness : ℤ := 0
  improvement_tip : String := ""
  positive_note : String := ""
deriving DecidableEq

/-- `AnswerEvaluation.average_score`: arithmetic mean of the four scores. -/
def AnswerEvaluation.average_score (e : AnswerEvaluation) : ℚ :=
  ((e.technical_accuracy + e.clarity + e.depth + e.completeness : ℤ) : ℚ) / 4

/-- `InterviewExchange` dataclass. Timestamps are modelled by their ISO-8601
string form. -/
structure InterviewExchange where
  question : String
  answer : String
  answer_duration_seconds : ℚ
  evaluation : Option AnswerEvaluation := none
  coaching_feedback : Option CoachingFeedback := none
  timestamp : String
deriving DecidableEq

/-- `InterviewSession` dataclass. -/
structure InterviewSession where
  session_id : String
  state : InterviewState := .IDLE
  resume_text : String := ""
  job_description : String := ""
  exchanges : List InterviewExchange := []
  current_question : String := ""
  started_at : Option String := none
  ended_at : Option String := none
  total_questions_asked : ℕ := 0
  total_filler_words : ℕ := 0
  average_wpm : ℚ := 0
deriving DecidableEq

/-- `InterviewSession.add_exchange`: appends the exchange and updates the
derived aggregates (`total_questions_asked` is reset to the exchange count,
filler words accumulate, `average_wpm` averages over exchanges that carry
coaching feedback and is left unchanged when none do). -/
def InterviewSession.add_exchange (s : InterviewSession) (ex : InterviewExchange) :
    InterviewSession :=
  let exchanges := s.exchanges ++ [ex]
  let total_filler_words := s.total_filler_words +
    (match ex.coaching_feedback with
     | some cf => cf.filler_count
     | none => 0)
  let wpm_values := exchanges.filterMap fun e => e.coaching_feedback.map (·.words_per_minute)
  { s with
    exchanges := exchanges
    total_questions_asked := exchanges.length
    total_filler_words := total_filler_words
    average_wpm :=
      if wpm_values.isEmpty then s.average_wpm
      else wpm_values.sum / (wpm_values.length : ℚ) }

/-- `InterviewSession.average_score`: mean evaluation score over exchanges
that carry an evaluation, 0 when none do. -/
def InterviewSession.average_score (s : InterviewSession) : ℚ :=
  let scores := s.exchanges.filterMap fun ex => ex.evaluation.map (·.average_score)
  if scores.isEmpty then 0 else scores.sum / (scores.length : ℚ)

/-- `InterviewSession.duration_minutes`. `parseTs` stands for Python's
`datetime.fromisoformat` (seconds since epoch); `now` is the current time
used when the session has not ended. -/
def InterviewSession.duration_minutes (parseTs : String → ℚ) (now : ℚ)
    (s : InterviewSession) : ℚ :=
  match s.started_at with
  | none => 0
  | some st =>
    ((match s.ended_at with
      | some e => parseTs e
      | none => now) - parseTs st) / 60

/-- Python's banker's rounding to the nearest integer (ties to even). -/
def roundHalfEven (q : ℚ) : ℤ :=
  let f := ⌊q⌋
  if q - f < 1 / 2 then f
  else if q - f > 1 / 2 then f + 1
  else if Even f then f else f + 1

/-- Python `round(x, 1)`. -/
def pyRound1 (q : ℚ) : ℚ := (roundHalfEven (q * 10) : ℚ) / 10

/-- The summary dictionary produced by `InterviewSession.to_summary_dict`. -/
structure SessionSummary where
  session_id : String
  duration_minutes : ℚ
  total_questions : ℕ
  average_score : ℚ
  average_wpm : ℚ
  total_filler_words : ℕ
deriving DecidableEq

/-- `InterviewSession.to_summary_dict`. -/
def InterviewSession.to_summary_dict (parseTs : String → ℚ) (now : ℚ)
    (s : InterviewSession) : SessionSummary :=
  { session_id := s.session_id
    duration_minutes := pyRound1 (s.duration_minutes parseTs now)
    total_questions := s.total_questions_asked
    average_score := pyRound1 s.average_score
    average_wpm := pyRound1 s.average_wpm
    total_filler_words := s.total_filler_words }

/-- `QuestionContext` dataclass. -/
structure QuestionContext where
  resume_text : String
  job_description : String
  previous_questions : List String := []
  previous_answers : List String := []
deriving DecidableEq

/-- `QuestionContext.add_exchange`. -/
def QuestionContext.add_exchange (c : QuestionContext) (q a : String) : QuestionContext :=
  { c with
    previous_questions := c.previous_questions ++ [q]
    previous_answers := c.previous_answers ++ [a] }

/-- The mutable state of an `InterviewOrchestrator` (`_session` and
`_question_context`; the adapters are modelled by passing call outcomes in,
the coach's histories are threaded where needed). -/
structure Orchestrator where
  session : Option InterviewSession := none
  context : Option QuestionContext := none
deriving DecidableEq

/-- `InterviewOrchestrator.start_session`: constructs a fresh session
(created in `SETUP`, immediately moved to `INTRO`) and a fresh question
context, returning the session id. -/
def orch_start_session (resume jd sid startTime : String) (_o : Orchestrator) :
    Orchestrator × String :=
  let s : InterviewSession :=
    { session_id := sid
      state := .INTRO
      resume_text := resume
      job_description := jd
      started_at := some startTime }
  ({ session := some s
     context := some { resume_text := resume, job_description := jd } }, sid)

/-- `InterviewOrchestrator.get_next_question`. `genOpening` / `genNext` are
the outcomes of the two Gemini generation calls; the opening one is used when
no previous question exists. On failure the session state becomes `ERROR` and
the failure is re-raised. -/
def orch_get_next_question (genOpening genNext : Except String String)
    (o : Orchestrator) : Orchestrator × Except String String :=
  match o.session, o.context with
  | some s, some ctx =>
    let sq := { s with state := InterviewState.QUESTIONING }
    match (if ctx.previous_questions.isEmpty then genOpening else genNext) with
    | .error e => ({ o with session := some { sq with state := .ERROR } }, .error e)
    | .ok q =>
      ({ o with session := some { sq with
          current_question := q
          total_questions_asked := sq.total_questions_asked + 1
          state := .LISTENING } }, .ok q)
  | _, _ => (o, .error "No active session")

/-- `InterviewOrchestrator.process_answer`. `transcription` is the Whisper
outcome, `audio` the decoded sample array, `evaluation` the Gemini outcome.
Returns the new orchestrator state, the coach's updated WPM and volume
histories, and the result (or the re-raised failure, with the session in
`ERROR`). -/
def orch_process_answer (S : Settings) (wpmH volH : List ℚ)
    (transcription : Except String String) (audio : List ℚ) (sampleRate : ℚ)
    (evaluation : Except String AnswerEvaluation) (ts : String) (o : Orchestrator) :
    Orchestrator × (List ℚ × List ℚ) ×
      Except String (String × CoachingFeedback × AnswerEvaluation) :=
  match o.session with
  | none => (o, (wpmH, volH), .error "No active session")
  | some s =>
    let se := { s with state := InterviewState.EVALUATING }
    match transcription with
    | .error e => ({ o with session := some { se with state := .ERROR } }, (wpmH, volH), .error e)
    | .ok transcript =>
      let duration : ℚ := if audio.isEmpty then 0 else (audio.length : ℚ) / sampleRate
      let cres := get_coaching_feedback S wpmH volH transcript.data duration (some audio)
      match evaluation with
      | .error e =>
        ({ o with session := some { se with state := .ERROR } },
         (cres.2.1, cres.2.2), .error e)
      | .ok ev =>
        let ex : InterviewExchange :=
          { question := se.current_question
            answer := transcript
            answer_duration_seconds := duration
            evaluation := some ev
            coaching_feedback := some cres.1
            timestamp := ts }
        let s2 := se.add_exchange ex
        let ctx2 := o.context.map fun c => c.add_exchange se.current_question transcript
        ({ session := some s2, context := ctx2 },
         (cres.2.1, cres.2.2), .ok (transcript, cres.1, ev))

/-- `InterviewOrchestrator.end_session`: stamps `ended_at` (the ISO string
`t`), moves to `COMPLETE` and returns the summary. Only the presence of a
session is checked. -/
def orch_end_session (parseTs : String → ℚ) (t : String) (o : Orchestrator) :
    Orchestrator × Except String SessionSummary :=
  match o.session with
  | none => (o, .error "No active session")
  | some s =>
    let s2 := { s with ended_at := some t, state := InterviewState.COMPLETE }
    ({ o with session := some s2 }, .ok (s2.to_summary_dict parseTs (parseTs t)))

/-- Opening brace character (written numerically: braces inside string
literals are avoided throughout this file). -/
def lbrace : Char := Char.ofNat 123

/-- Closing brace character. -/
def rbrace : Char := Char.ofNat 125

/-- The run consumed by the regex piece matching one-or-more non-brace
characters (DOTALL, so a newline is an ordinary character): returns the
maximal brace-free run and the remainder. -/
def takeInner : List Char → List Char × List Char
  | [] => ([], [])
  | c :: cs =>
    if c = lbrace ∨ c = rbrace then ([], c :: cs)
    else
      let r := takeInner cs
      (c :: r.1, r.2)

/-- The regex search in `GeminiInterviewer._parse_evaluation`: leftmost
occurrence of an opening brace, one or more non-brace characters, and a
closing brace. -/
def findJsonBlock : List Char → Option (List Char)
  | [] => none
  | c :: cs =>
    if c = lbrace then
      let r := takeInner cs
      match r.2 with
      | d :: _ =>
        if d = rbrace ∧ r.1.isEmpty = false then some (lbrace :: r.1 ++ [rbrace])
        else findJsonBlock cs
      | [] => findJsonBlock cs
    else findJsonBlock cs

/-- The default `AnswerEvaluation` returned by
`GeminiInterviewer.evaluate_answer` when generation or parsing fails. -/
def fallbackEvaluation : AnswerEvaluation :=
  { technical_accuracy := 5
    clarity := 5
    depth := 5
    completeness := 5
    improvement_tip := "Unable to evaluate - please continue."
    positive_note := "Keep going!" }

/-- `GeminiInterviewer._parse_evaluation`. `jsonLoads` stands for Python's
`json.loads` plus the `int(...)` conversions and `.get` defaults applied to
the extracted block (external library behaviour); an error models any
exception raised by them. -/
def parse_evaluation (jsonLoads : List Char → Except String AnswerEvaluation)
    (response : List Char) : Except String AnswerEvaluation :=
  match findJsonBlock response with
  | none => .error "No JSON found in response"
  | some block => jsonLoads block

/-- `GeminiInterviewer.evaluate_answer`: `generated` is the `_generate`
outcome; any failure of generation or parsing is swallowed and replaced by
`fallbackEvaluation`. -/
def gemini_evaluate_answer (jsonLoads : List Char → Except String AnswerEvaluation)
    (generated : Except String (List Char)) : AnswerEvaluation :=
  match generated with
  | .error _ => fallbackEvaluation
  | .ok response =>
    match parse_evaluation jsonLoads response with
    | .ok ev => ev
    | .error _ => fallbackEvaluation

/-- The serialized form of an `AnswerEvaluation`
(`SessionRepository._evaluation_to_dict`). -/
structure EvaluationDict where
  technical_accuracy : ℤ
  clarity : ℤ
  depth : ℤ
  completeness : ℤ
  improvement_tip : String
  positive_note : String
deriving DecidableEq

/-- The serialized form of a `CoachingFeedback`
(`SessionRepository._coaching_to_dict`; the enum is stored as its value). -/
structure CoachingDict where
  volume_status : String
  pace_status : String
  filler_count : ℕ
  words_per_minute : ℚ
  primary_alert : String
  alert_level : String
deriving DecidableEq

/-- The serialized form of an `InterviewExchange`
(`SessionRepository._exchange_to_dict`). -/
structure ExchangeDict where
  question : String
  answer : String
  duration_seconds : ℚ
  timestamp : String
  evaluation : Option EvaluationDict
  coaching : Option CoachingDict
deriving DecidableEq

/-- The serialized form of an `InterviewSession`
(`SessionRepository._session_to_dict`; datetimes stored as ISO strings,
enums as their string values). -/
structure SessionDict where
  version : ℕ
  session_id : String
  state : String
  resume_text : String
  job_description : String
  current_question : String
  started_at : Option String
  ended_at : Option String
  total_questions_asked : ℕ
  total_filler_words : ℕ
  average_wpm : ℚ
  exchanges : List ExchangeDict
deriving DecidableEq

/-- `SessionRepository._evaluation_to_dict`. -/
def evaluation_to_dict (e : AnswerEvaluation) : EvaluationDict :=
  { technical_accuracy := e.technical_accuracy
    clarity := e.clarity
    depth := e.depth
    completeness := e.completeness
    improvement_tip := e.improvement_tip
    positive_note := e.positive_note }

/-- `SessionRepository._coaching_to_dict`. -/
def coaching_to_dict (c : CoachingFeedback) : CoachingDict :=
  { volume_status := c.volume_status
    pace_status := c.pace_status
    filler_count := c.filler_count
    words_per_minute := c.words_per_minute
    primary_alert := c.primary_alert
    alert_level := c.alert_level.value }

/-- `SessionRepository._exchange_to_dict` (timestamps are already ISO
strings in this embedding, so `isoformat` is the identity). -/
def exchange_to_dict (ex : InterviewExchange) : ExchangeDict :=
  { question := ex.question
    answer := ex.answer
    duration_seconds := ex.answer_duration_seconds
    timestamp := ex.timestamp
    evaluation := ex.evaluation.map evaluation_to_dict
    coaching := ex.coaching_feedback.map coaching_to_dict }

/-- `SessionRepository._session_to_dict`. -/
def session_to_dict (s : InterviewSession) : SessionDict :=
  { version := 1
    session_id := s.session_id
    state := s.state.value
    resume_text := s.resume_text
    job_description := s.job_description
    current_question := s.current_question
    started_at := s.started_at
    ended_at := s.ended_at
    total_questions_asked := s.total_questions_asked
    total_filler_words := s.total_filler_words
    average_wpm := s.average_wpm
    exchanges := s.exchanges.map exchange_to_dict }

/-- `SessionRepository._dict_to_evaluation` (`None` in gives `None` out; a
stored dict always carries all six keys). -/
def dict_to_evaluation : Option EvaluationDict → Option AnswerEvaluation
  | none => none
  | some d =>
    some { technical_accuracy := d.technical_accuracy
           clarity := d.clarity
           depth := d.depth
           completeness := d.completeness
           improvement_tip := d.improvement_tip
           positive_note := d.positive_note }

/-- `SessionRepository._dict_to_coaching`. The outer `none` models the
`ValueError` from `CoachingAlertLevel(...)` on an unknown stored value
(which `load` turns into an overall `None`). -/
def dict_to_coaching : Option CoachingDict → Option (Option CoachingFeedback)
  | none => some none
  | some d =>
    match coachingAlertLevelOfValue d.alert_level with
    | none => none
    | some lvl =>
      some (some { volume_status := d.volume_status
                   pace_status := d.pace_status
                   filler_count := d.filler_count
                   words_per_minute := d.words_per_minute
                   primary_alert := d.primary_alert
                   alert_level := lvl })

/-- One exchange of `SessionRepository._dict_to_session`: a falsy (empty)
stored timestamp falls back to `datetime.now()`, passed here as `now`. -/
def exchange_from_dict (now : String) (d : ExchangeDict) : Option InterviewExchange :=
  match dict_to_coaching d.coaching with
  | none => none
  | some coaching =>
    some { question := d.question
           answer := d.answer
           answer_duration_seconds := d.duration_seconds
           evaluation := dict_to_evaluation d.evaluation
           coaching_feedback := coaching
           timestamp := if d.timestamp ≠ "" then d.timestamp else now }

/-- `SessionRepository._dict_to_session`. `none` models the exception path
that `load` converts to an overall `None` (unknown enum value). -/
def dict_to_session (now : String) (d : SessionDict) : Option InterviewSession :=
  match interviewStateOfValue d.state with
  | none => none
  | some st =>
    match d.exchanges.mapM (exchange_from_dict now) with
    | none => none
    | some exs =>
      some { session_id := d.session_id
             state := st
             resume_text := d.resume_text
             job_description := d.job_description
             current_question := d.current_question
             started_at :=
               (match d.started_at with
                | some ts => if ts ≠ "" then some ts else none
                | none => none)
             ended_at :=
               (match d.ended_at with
                | some ts => if ts ≠ "" then some ts else none
                | none => none)
             total_questions_asked := d.total_questions_asked
             total_filler_words := d.total_filler_words
             average_wpm := d.average_wpm
             exchanges := exs }

/-- `SessionRepository.save` restricted to one session id: the stored record
is atomically replaced by the serialized session. -/
def repo_save (s : InterviewSession) (_store : Option SessionDict) : Option SessionDict :=
  some (session_to_dict s)

/-- `SessionRepository.load` restricted to one session id: absent record or
deserialization failure gives `none`. -/
def repo_load (now : String) (store : Option SessionDict) : Option InterviewSession :=
  match store with
  | none => none
  | some d => dict_to_session now d

/-- Well-formedness needed for the round trip: the session's ISO timestamp
strings are never empty (true of every `datetime.isoformat()` output; an
empty string is falsy in Python and would be dropped on load). -/
def session_wf (s : InterviewSession) : Bool :=
  (s.started_at != some "") && (s.ended_at != some "") &&
    (s.exchanges.all fun ex => ex.timestamp != "")

/-- The `/session/start` route handler: starts the session and persists it
immediately. -/
def route_start_session (resume jd sid startTime : String) (store : Option SessionDict) :
    Orchestrator × Option SessionDict :=
  let o := (orch_start_session resume jd sid startTime {}).1
  (o,
   match o.session with
   | some s => repo_save s store
   | none => store)

/-- The `/question/next` route handler: checks for a session, generates the
question through the orchestrator, and returns WITHOUT saving. -/
def route_get_next_question (genOpening genNext : Except String String)
    (o : Orchestrator) (store : Option SessionDict) :
    Orchestrator × Option SessionDict × Except String String :=
  match o.session with
  | none => (o, store, .error "No active session. Start a session first.")
  | some _ =>
    let r := orch_get_next_question genOpening genNext o
    (r.1, store, r.2)

/-- The `/answer/submit` route handler (text path): coaches with a fresh
`AudioCoach` (empty histories, no audio), evaluates, records the exchange,
updates the question context and persists the session. -/
def route_submit_answer (S : Settings) (answer_text : String) (durationSeconds : ℚ)
    (evaluation : Except String AnswerEvaluation) (ts : String)
    (o : Orchestrator) (store : Option SessionDict) :
    Orchestrator × Option SessionDict × Except String (CoachingFeedback × AnswerEvaluation) :=
  match o.session with
  | none => (o, store, .error "No active session")
  | some s =>
    let coaching := (get_coaching_feedback S [] [] answer_text.data durationSeconds none).1
    match evaluation with
    | .error e => (o, store, .error e)
    | .ok ev =>
      let ex : InterviewExchange :=
        { question := s.current_question
          answer := answer_text
          answer_duration_seconds := durationSeconds
          evaluation := some ev
          coaching_feedback := some coaching
          timestamp := ts }
      let s2 := s.add_exchange ex
      let ctx2 := o.context.map fun c => c.add_exchange s.current_question answer_text
      ({ session := some s2, context := ctx2 }, repo_save s2 store, .ok (coaching, ev))

/-- The `/answer/audio` route handler: processes the answer through the
orchestrator and persists the session on success; a failure propagates
without saving. -/
def route_submit_audio (S : Settings) (wpmH volH : List ℚ)
    (transcription : Except String String) (audio : List ℚ) (sampleRate : ℚ)
    (evaluation : Except String AnswerEvaluation) (ts : String)
    (o : Orchestrator) (store : Option SessionDict) :
    Orchestrator × Option SessionDict ×
      Except String (String × CoachingFeedback × AnswerEvaluation) :=
  match o.session with
  | none => (o, store, .error "No active session")
  | some _ =>
    let r := orch_process_answer S wpmH volH transcription audio sampleRate evaluation ts o
    match r.2.2 with
    | .error e => (r.1, store, .error e)
    | .ok payload =>
      (r.1,
       (match r.1.session with
        | some s2 => repo_save s2 store
        | none => store),
       .ok payload)

/-- The `/session/end` route handler: ends the session through the
orchestrator and returns WITHOUT saving (the in-memory map removal and email
side channel are outside the persistence model). -/
def route_end_session (parseTs : String → ℚ) (t : String)
    (o : Orchestrator) (store : Option SessionDict) :
    Orchestrator × Option SessionDict × Except String SessionSummary :=
  match o.session with
  | none => (o, store, .error "No active session")
  | some _ =>
    let r := orch_end_session parseTs t o
    (r.1, store, r.2)

/-- Concrete orchestrator-plus-store state right after the start handler
(used as the explicit input of the persistence counterexample). -/
def c3Start : Orchestrator × Option SessionDict :=
  route_start_session "resume text" "job description" "abc12345" "2024-01-01T10:00:00" none

/-- A concrete exchange with evaluation and coaching, for witnesses. -/
def sampleExchange : InterviewExchange :=
  { question := "Q1"
    answer := "A1"
    answer_duration_seconds := 2
    evaluation := some { technical_accuracy := 7, clarity := 6, depth := 5, completeness := 8,
                         improvement_tip := "tip", positive_note := "note" }
    coaching_feedback := some { volume_status := "OK", pace_status := "OK", filler_count := 1,
                                words_per_minute := 120, primary_alert := "", alert_level := .OK }
    timestamp := "2024-01-01T10:05:00" }

/-- A concrete session holding `sampleExchange`, for the round-trip witness. -/
def sampleSession : InterviewSession :=
  { session_id := "abc12345"
    state := .LISTENING
    resume_text := "r"
    job_description := "j"
    exchanges := [sampleExchange]
    current_question := "Q1"
    started_at := some "2024-01-01T10:00:00"
    ended_at := none
    total_questions_asked := 1
    total_filler_words := 1
    average_wpm := 120 }

/-- A concrete already-ended session (state COMPLETE, `ended_at` stamped). -/
def endedSession : InterviewSession :=
  { session_id := "abc12345"
    state := .COMPLETE
    started_at := some "2024-01-01T10:00:00"
    ended_at := some "2024-01-01T10:30:00" }

/-- A concrete freshly-started session, for witnesses. -/
def blankSession : InterviewSession :=
  { session_id := "s1", state := .INTRO, started_at := some "2024-01-01T09:00:00" }

/-- A concrete fresh question context, for witnesses. -/
def blankContext : QuestionContext :=
  { resume_text := "r", job_description := "j" }

/-- The failing input for the CRITICAL-filler claim: eleven filler tokens,
spoken over five seconds (pace 132 WPM, inside the OK band), no audio. -/
def criticalFillerText : List Char := "um um um um um um um um um um um".data

/-- Helper: the pace analysis of `criticalFillerText` over 5 seconds is OK
(132 WPM) and records 132 in the history. -/
theorem analyze_pace_criticalFillerText :
    analyze_pace {} [] criticalFillerText 5 = ("OK", [132]) := by
  unfold analyze_pace
  rw [if_neg]
  · have h : (pyWords criticalFillerText).length = 11 := by decide
    rw [h]
    norm_num
  · push_neg
    exact ⟨by norm_num, by decide⟩

/-- C1: evaluation of the code at the failing input. With 11 fillers and both
volume and pace OK, `get_coaching_feedback` returns `WARNING` (with the
high-fillers message), not `CRITICAL`: the `filler_count > 10` branch is dead
because the `filler_count > 5` branch precedes it in the if/elif chain. -/
theorem C1_critical_unreachable_eval :
    (get_coaching_feedback {} [] [] criticalFillerText 5 none).1.filler_count = 11 ∧
    (get_coaching_feedback {} [] [] criticalFillerText 5 none).1.volume_status = "OK" ∧
    (get_coaching_feedback {} [] [] criticalFillerText 5 none).1.pace_status = "OK" ∧
    (get_coaching_feedback {} [] [] criticalFillerText 5 none).1.alert_level =
      CoachingAlertLevel.WARNING ∧
    (get_coaching_feedback {} [] [] criticalFillerText 5 none).1.primary_alert =
      fillersHighAlert := by
  unfold get_coaching_feedback
  rw [analyze_pace_criticalFillerText]
  have hf : get_filler_count criticalFillerText = 11 := by decide
  rw [hf]
  norm_num

/-- C2: for every input (settings, histories, text, duration, optional audio),
the alert level returned by `get_coaching_feedback` is never `CRITICAL`,
because the branch keyed on `filler_count > 10` is preceded by the branch
keyed on `filler_count > 5`. -/
theorem C2_alert_level_never_critical (S : Settings) (wpmH volH : List ℚ)
    (text : List Char) (dur : ℚ) (audio : Option (List ℚ)) :
    (get_coaching_feedback S wpmH volH text dur audio).1.alert_level ≠
      CoachingAlertLevel.CRITICAL := by
  unfold get_coaching_feedback
  dsimp only
  split_ifs with h1 h2 h3 h4
  · simp
  · simp
  · simp
  · omega
  · simp

/-- C9: `analyze_pace` returns OK and records nothing when the duration is
nonpositive or the text is blank; otherwise it computes
WPM = word count / duration × 60, appends it to the history, and picks the
fast alert above `WPM_FAST`, the slow alert below `WPM_SLOW`, else OK. -/
theorem C9_analyze_pace_spec :
    (∀ (S : Settings) (hist : List ℚ) (text : List Char) (dur : ℚ),
      (dur ≤ 0 ∨ isBlank text = true) → analyze_pace S hist text dur = ("OK", hist)) ∧
    (∀ (S : Settings) (hist : List ℚ) (text : List Char) (dur : ℚ),
      0 < dur → isBlank text = false →
      analyze_pace S hist text dur =
        ((if ((pyWords text).length : ℚ) / dur * 60 > S.WPM_FAST then paceFastAlert
          else if ((pyWords text).length : ℚ) / dur * 60 < S.WPM_SLOW then paceSlowAlert
          else "OK"),
         hist ++ [((pyWords text).length : ℚ) / dur * 60])) := by
  constructor
  · intro S hist text dur h
    unfold analyze_pace
    rw [if_pos h]
  · intro S hist text dur hdur hblank
    unfold analyze_pace
    rw [if_neg]
    · dsimp only
      split_ifs <;> rfl
    · push_neg
      exact ⟨hdur, by simp [hblank]⟩

/-- Witness for C9 at concrete inputs: a blank three-space text over 5 seconds
is degenerate, and a two-word text over one second is analyzed (120 WPM, fast
and slow cutoffs from the default settings). -/
theorem C9_analyze_pace_spec_witness :
    analyze_pace {} [] "   ".data 5 = ("OK", []) ∧
    analyze_pace {} [] "hello world".data 1 =
      ((if ((pyWords "hello world".data).length : ℚ) / 1 * 60 > ({} : Settings).WPM_FAST
          then paceFastAlert
        else if ((pyWords "hello world".data).length : ℚ) / 1 * 60 < ({} : Settings).WPM_SLOW
          then paceSlowAlert
        else "OK"),
       [] ++ [((pyWords "hello world".data).length : ℚ) / 1 * 60]) :=
  ⟨C9_analyze_pace_spec.1 {} [] _ 5 (Or.inr (by decide)),
   C9_analyze_pace_spec.2 {} [] _ 1 (by norm_num) (by decide)⟩

/-- Idempotence of ASCII lowercasing of one character. -/
theorem lowerChar_idem (c : Char) : lowerChar (lowerChar c) = lowerChar c := by
  unfold lowerChar
  by_cases h : 65 ≤ c.toNat ∧ c.toNat ≤ 90
  · rw [if_pos h]
    have hv : Nat.isValidChar (c.toNat + 32) := Or.inl (by omega)
    have ht : (Char.ofNat (c.toNat + 32)).toNat = c.toNat + 32 := by
      rw [Char.ofNat, dif_pos hv]
      rfl
    rw [if_neg]
    rw [ht]
    omega
  · rw [if_neg h, if_neg h]

/-- Idempotence of ASCII lowercasing of a text. -/
theorem pyLower_idem (t : List Char) : pyLower (pyLower t) = pyLower t := by
  induction t with
  | nil => rfl
  | cons c cs ih =>
    simp only [pyLower, List.map_cons, List.map_map] at ih ⊢
    rw [lowerChar_idem]
    exact congrArg _ ih

/-- C10: filler counting is case-insensitive (invariant under lowercasing),
returns 0 for empty text, does not count `like` inside `likely` (single-word
fillers match whole whitespace tokens only), counts multi-word fillers by
substring occurrence, and the spec's example sentence yields at least 3. -/
theorem C10_get_filler_count_spec :
    get_filler_count [] = 0 ∧
    get_filler_count "likely".data = 0 ∧
    get_filler_count "you know you know".data = 2 ∧
    3 ≤ get_filler_count "I think um that um we should um do this".data ∧
    ∀ text : List Char, get_filler_count (pyLower text) = get_filler_count text := by
  refine ⟨by decide, by decide, by decide, by decide, fun text => ?_⟩
  unfold get_filler_count
  rw [pyLower_idem]
  have he : (pyLower text).isEmpty = text.isEmpty := by
    cases text <;> rfl
  rw [he]

/-- C3 counterexample: starting a session persists it, but after the
question-generation handler completes, the stored record (still the freshly
started session, zero questions) differs from the serialized in-memory
session (one question asked): the handler does not save. -/
theorem C3_counterexample :
    (route_get_next_question (.ok "Q1") (.ok "Q1") c3Start.1 c3Start.2).2.1 ≠
      (route_get_next_question (.ok "Q1") (.ok "Q1") c3Start.1 c3Start.2).1.session.map
        session_to_dict := by
  decide

/-- C3 (amended): the start and answer-submission handlers persist the
updated session before returning (stored record = serialized in-memory
session), while the question-generation and session-end handlers leave the
store untouched. -/
theorem C3_amended_persistence :
    (∀ (resume jd sid t : String) (store : Option SessionDict),
      (route_start_session resume jd sid t store).2 =
        (route_start_session resume jd sid t store).1.session.map session_to_dict) ∧
    (∀ (S : Settings) (text : String) (dur : ℚ) (ev : AnswerEvaluation) (ts : String)
        (s : InterviewSession) (c : Option QuestionContext) (store : Option SessionDict),
      (route_submit_answer S text dur (.ok ev) ts ⟨some s, c⟩ store).2.1 =
        (route_submit_answer S text dur (.ok ev) ts ⟨some s, c⟩ store).1.session.map
          session_to_dict) ∧
    (∀ (S : Settings) (wpmH volH : List ℚ) (tr : String) (audio : List ℚ) (sr : ℚ)
        (ev : AnswerEvaluation) (ts : String) (s : InterviewSession)
        (c : Option QuestionContext) (store : Option SessionDict),
      (route_submit_audio S wpmH volH (.ok tr) audio sr (.ok ev) ts ⟨some s, c⟩ store).2.1 =
        (route_submit_audio S wpmH volH (.ok tr) audio sr (.ok ev) ts ⟨some s, c⟩
          store).1.session.map session_to_dict) ∧
    (∀ (gO gN : Except String String) (o : Orchestrator) (store : Option SessionDict),
      (route_get_next_question gO gN o store).2.1 = store) ∧
    (∀ (parseTs : String → ℚ) (t : String) (o : Orchestrator) (store : Option SessionDict),
      (route_end_session parseTs t o store).2.1 = store) := by
  refine ⟨fun resume jd sid t store => rfl,
    fun S text dur ev ts s c store => rfl,
    fun S wpmH volH tr audio sr ev ts s c store => rfl,
    fun gO gN o store => ?_,
    fun parseTs t o store => ?_⟩
  · rcases o with ⟨os, oc⟩
    cases os <;> rfl
  · rcases o with ⟨os, oc⟩
    cases os <;> rfl

/-- The enum string round trip for interview states. -/
theorem interviewStateOfValue_value (st : InterviewState) :
    interviewStateOfValue st.value = some st := by
  cases st <;> rfl

/-- The enum string round trip for alert levels. -/
theorem coachingAlertLevelOfValue_value (l : CoachingAlertLevel) :
    coachingAlertLevelOfValue l.value = some l := by
  cases l <;> rfl

/-- Serialization round trip for optional evaluations. -/
theorem dict_to_evaluation_roundtrip (e : Option AnswerEvaluation) :
    dict_to_evaluation (e.map evaluation_to_dict) = e := by
  cases e <;> rfl

/-- Serialization round trip for optional coaching feedback. -/
theorem dict_to_coaching_roundtrip (c : Option CoachingFeedback) :
    dict_to_coaching (c.map coaching_to_dict) = some c := by
  cases c with
  | none => rfl
  | some cf =>
    simp [dict_to_coaching, coaching_to_dict, coachingAlertLevelOfValue_value]

/-- Serialization round trip for one exchange (its stored timestamp is a
non-empty ISO string). -/
theorem exchange_from_dict_roundtrip (now : String) (ex : InterviewExchange)
    (h : ex.timestamp ≠ "") :
    exchange_from_dict now (exchange_to_dict ex) = some ex := by
  unfold exchange_from_dict exchange_to_dict
  rw [dict_to_coaching_roundtrip]
  dsimp only
  rw [dict_to_evaluation_roundtrip, if_pos h]

/-- Serialization round trip for the exchange list. -/
theorem mapM_exchange_roundtrip (now : String) (l : List InterviewExchange)
    (h : ∀ ex ∈ l, ex.timestamp ≠ "") :
    (l.map exchange_to_dict).mapM (exchange_from_dict now) = some l := by
  induction l with
  | nil => rfl
  | cons x xs ih =>
    simp only [List.map_cons, List.mapM_cons]
    rw [exchange_from_dict_roundtrip now x (h x (by simp))]
    rw [ih fun ex hex => h ex (by simp [hex])]
    rfl

/-- C4: for every well-formed session (no empty timestamp strings — true of
every `isoformat` output), loading after saving reconstructs the session in
all fields, including the nested exchange / evaluation / coaching records,
both enum values and all timestamps. -/
theorem C4_save_load_roundtrip (now : String) (store : Option SessionDict)
    (s : InterviewSession) (h : session_wf s = true) :
    repo_load now (repo_save s store) = some s := by
  simp only [session_wf, Bool.and_eq_true, bne_iff_ne, ne_eq, List.all_eq_true] at h
  obtain ⟨⟨h1, h2⟩, h3⟩ := h
  show dict_to_session now (session_to_dict s) = some s
  unfold dict_to_session session_to_dict
  dsimp only
  rw [interviewStateOfValue_value]
  rw [mapM_exchange_roundtrip now s.exchanges fun ex hex => by
    have := h3 ex hex
    simpa [bne_iff_ne] using this]
  have hst : (match s.started_at with
      | some ts => if ts ≠ "" then some ts else none
      | none => none) = s.started_at := by
    cases hs : s.started_at with
    | none => rfl
    | some ts =>
      dsimp only
      rw [if_pos]
      intro he
      exact h1 (by rw [hs, he])
  have hen : (match s.ended_at with
      | some ts => if ts ≠ "" then some ts else none
      | none => none) = s.ended_at := by
    cases hs : s.ended_at with
    | none => rfl
    | some ts =>
      dsimp only
      rw [if_pos]
      intro he
      exact h2 (by rw [hs, he])
  rw [hst, hen]

/-- Witness: the round trip applied to `sampleSession` (one exchange with
evaluation and coaching feedback). -/
theorem C4_save_load_roundtrip_witness :
    session_wf sampleSession = true ∧
    repo_load "2024-01-02T00:00:00" (repo_save sampleSession none) = some sampleSession :=
  ⟨by decide,
   C4_save_load_roundtrip "2024-01-02T00:00:00" none sampleSession (by decide)⟩

/-- C5 counterexample: ending the already-ended `endedSession` (state
`COMPLETE`, `ended_at` stamped) succeeds again instead of failing with a
session-error — `end_session` only checks that a session is present. -/
theorem C5_counterexample :
    (orch_end_session (fun _ => 0) "2024-01-01T11:00:00"
      ⟨some endedSession, none⟩).2.isOk = true := rfl

/-- C5 (amended): `get_next_question`, `process_answer` and `end_session`
all fail with the session-error when no session has been started;
`end_session` succeeds whenever a session is present — including one that
already ended — and afterwards the state is `COMPLETE` and `ended_at` is
set. -/
theorem C5_amended_state_machine :
    (∀ (gO gN : Except String String) (c : Option QuestionContext),
      orch_get_next_question gO gN ⟨none, c⟩ = (⟨none, c⟩, .error "No active session")) ∧
    (∀ (S : Settings) (wpmH volH : List ℚ) (tr : Except String String) (audio : List ℚ)
        (sr : ℚ) (ev : Except String AnswerEvaluation) (ts : String)
        (c : Option QuestionContext),
      orch_process_answer S wpmH volH tr audio sr ev ts ⟨none, c⟩ =
        (⟨none, c⟩, (wpmH, volH), .error "No active session")) ∧
    (∀ (parseTs : String → ℚ) (t : String) (c : Option QuestionContext),
      orch_end_session parseTs t ⟨none, c⟩ = (⟨none, c⟩, .error "No active session")) ∧
    (∀ (parseTs : String → ℚ) (t : String) (s : InterviewSession)
        (c : Option QuestionContext),
      (orch_end_session parseTs t ⟨some s, c⟩).2.isOk = true ∧
      (orch_end_session parseTs t ⟨some s, c⟩).1.session =
        some { s with ended_at := some t, state := InterviewState.COMPLETE }) :=
  ⟨fun _ _ _ => rfl,
   fun _ _ _ _ _ _ _ _ _ => rfl,
   fun _ _ _ => rfl,
   fun _ _ _ _ => ⟨rfl, rfl⟩⟩

/-- C6: an adapter failure inside `get_next_question` (generation error) or
`process_answer` (transcription error, or evaluation error after coaching
already updated the histories) sets the session state to `ERROR` and
re-raises the same failure; no failing call returns normally. -/
theorem C6_adapter_failure_error_state :
    (∀ (s : InterviewSession) (c : QuestionContext) (gO gN : Except String String)
        (e : String),
      (if c.previous_questions.isEmpty then gO else gN) = Except.error e →
      orch_get_next_question gO gN ⟨some s, some c⟩ =
        (⟨some { s with state := InterviewState.ERROR }, some c⟩, .error e)) ∧
    (∀ (S : Settings) (wpmH volH : List ℚ) (audio : List ℚ) (sr : ℚ)
        (ev : Except String AnswerEvaluation) (ts : String) (s : InterviewSession)
        (c : Option QuestionContext) (e : String),
      orch_process_answer S wpmH volH (.error e) audio sr ev ts ⟨some s, c⟩ =
        (⟨some { s with state := InterviewState.ERROR }, c⟩, (wpmH, volH), .error e)) ∧
    (∀ (S : Settings) (wpmH volH : List ℚ) (tr : String) (audio : List ℚ) (sr : ℚ)
        (ts : String) (s : InterviewSession) (c : Option QuestionContext) (e : String),
      orch_process_answer S wpmH volH (.ok tr) audio sr (.error e) ts ⟨some s, c⟩ =
        (⟨some { s with state := InterviewState.ERROR }, c⟩,
         ((get_coaching_feedback S wpmH volH tr.data
             (if audio.isEmpty then 0 else (audio.length : ℚ) / sr) (some audio)).2.1,
          (get_coaching_feedback S wpmH volH tr.data
             (if audio.isEmpty then 0 else (audio.length : ℚ) / sr) (some audio)).2.2),
         .error e)) := by
  refine ⟨?_, fun S wpmH volH audio sr ev ts s c e => rfl,
    fun S wpmH volH tr audio sr ts s c e => rfl⟩
  intro s c gO gN e h
  unfold orch_get_next_question
  dsimp only
  rw [h]

/-- Witness for C6: a failing opening-question generation on a fresh session
moves it to `ERROR` and re-raises the failure. -/
theorem C6_adapter_failure_error_state_witness :
    orch_get_next_question (.error "boom") (.ok "q")
        ⟨some blankSession, some blankContext⟩ =
      (⟨some { blankSession with state := InterviewState.ERROR }, some blankContext⟩,
       .error "boom") :=
  C6_adapter_failure_error_state.1 blankSession blankContext _ _ "boom" rfl

/-- C7: after every `add_exchange`, `total_questions_asked` equals the
exchange count; and a successful `get_next_question` on a session satisfying
that invariant leaves `total_questions_asked` exactly one above the (still
unchanged) exchange count. -/
theorem C7_questions_asked_invariant :
    (∀ (s : InterviewSession) (ex : InterviewExchange),
      (s.add_exchange ex).total_questions_asked = (s.add_exchange ex).exchanges.length) ∧
    (∀ (s : InterviewSession) (c : QuestionContext) (q : String),
      s.total_questions_asked = s.exchanges.length →
      (orch_get_next_question (.ok q) (.ok q) ⟨some s, some c⟩).1.session.map
          (fun s2 => (s2.total_questions_asked, s2.exchanges.length)) =
        some (s.exchanges.length + 1, s.exchanges.length)) := by
  constructor
  · intro s ex
    rfl
  · intro s c q h
    unfold orch_get_next_question
    dsimp only
    rw [ite_self]
    dsimp only [Option.map]
    rw [h]

/-- Witness for C7 on concrete data: appending `sampleExchange` to
`blankSession`, and generating a question on `blankSession` (0 questions, 0
exchanges). -/
theorem C7_questions_asked_invariant_witness :
    (blankSession.add_exchange sampleExchange).total_questions_asked =
      (blankSession.add_exchange sampleExchange).exchanges.length ∧
    (orch_get_next_question (.ok "q") (.ok "q")
        ⟨some blankSession, some blankContext⟩).1.session.map
        (fun s2 => (s2.total_questions_asked, s2.exchanges.length)) =
      some (blankSession.exchanges.length + 1, blankSession.exchanges.length) :=
  ⟨C7_questions_asked_invariant.1 blankSession sampleExchange,
   C7_questions_asked_invariant.2 blankSession blankContext "q" (by decide)⟩

/-- C8: when the generated response contains no parseable JSON object (the
brace-delimited regex finds nothing), `evaluate_answer` does not raise: it
returns the fallback evaluation whose four scores are all 5. -/
theorem C8_malformed_response_fallback
    (jsonLoads : List Char → Except String AnswerEvaluation) (response : List Char)
    (h : findJsonBlock response = none) :
    gemini_evaluate_answer jsonLoads (.ok response) = fallbackEvaluation ∧
    fallbackEvaluation.technical_accuracy = 5 ∧ fallbackEvaluation.clarity = 5 ∧
    fallbackEvaluation.depth = 5 ∧ fallbackEvaluation.completeness = 5 := by
  refine ⟨?_, rfl, rfl, rfl, rfl⟩
  unfold gemini_evaluate_answer parse_evaluation
  dsimp only
  rw [h]

/-- Witness for C8: a prose response without braces yields the fallback
evaluation regardless of the JSON decoder. -/
theorem C8_malformed_response_fallback_witness :
    gemini_evaluate_answer (fun _ => Except.error "unused")
        (.ok "no structured output".data) = fallbackEvaluation ∧
    fallbackEvaluation.technical_accuracy = 5 ∧ fallbackEvaluation.clarity = 5 ∧
    fallbackEvaluation.depth = 5 ∧ fallbackEvaluation.completeness = 5 :=
  C8_malformed_response_fallback (fun _ => Except.error "unused")
    "no structured output".data (by decide)

end InterViewAI
